import Mathlib

/-!
Shallow embedding of `src/exam-quiz.py`, an interactive command-line quiz
tool: a static question dataset, an argument-driven filter over it, and a
quiz session object that selects questions, scores answers and reports a
tiered verdict.  Machine reals from the Python source (`score / total * 100`)
are embedded as rationals; Python strings are embedded as Lean strings with
their character lists made explicit so the ASCII case mappings used by the
program compute.
-/

/-- Python `str.upper()` as used by the program (ASCII case mapping applied
character-wise; the dataset's option keys are ASCII letters). -/
def py_upper (s : String) : String := ⟨s.data.map Char.toUpper⟩

/-- Python `str.lower()` as used by the program (ASCII case mapping applied
character-wise). -/
def py_lower (s : String) : String := ⟨s.data.map Char.toLower⟩

/-- Python `str.strip()`: remove whitespace from both ends. -/
def py_strip (s : String) : String :=
  ⟨((s.data.dropWhile Char.isWhitespace).reverse.dropWhile Char.isWhitespace).reverse⟩

/-- One question record of the dataset (`src/exam-quiz.py`, `QUESTIONS`
entries): id, category, difficulty, question text, option mapping
(single-letter key to display text), correct answer key, explanation. -/
structure Question where
  id : Nat
  category : String
  difficulty : String
  question : String
  options : List (String × String)
  answer : String
  explanation : String
deriving DecidableEq

/-- First record of `QUESTIONS` (id 1, VLAN / easy). -/
def question1 : Question :=
  { id := 1
    category := "VLAN"
    difficulty := "easy"
    question := "Was ist der Hauptzweck von VLANs?"
    options :=
      [("A", "Erhöhung der physischen Bandbreite"),
       ("B", "Logische Segmentierung eines Netzwerks"),
       ("C", "Verschlüsselung von Datenverkehr"),
       ("D", "Automatische IP-Adressvergabe")]
    answer := "B"
    explanation := "VLANs ermöglichen logische Segmentierung." }

/-- Second record of `QUESTIONS` (id 2, Firewall / medium). -/
def question2 : Question :=
  { id := 2
    category := "Firewall"
    difficulty := "medium"
    question := "Was bedeutet Default-Deny-Policy?"
    options :=
      [("A", "Alle Verbindungen erlaubt"),
       ("B", "Nur HTTPS erlaubt"),
       ("C", "Alle Verbindungen blockiert"),
       ("D", "Nur lokaler Traffic erlaubt")]
    answer := "C"
    explanation := "Default-Deny = Least-Privilege-Prinzip." }

/-- The module-level dataset `QUESTIONS` of `src/exam-quiz.py`. -/
def QUESTIONS : List Question := [question1, question2]

/-- The dataset filter of `main` (`src/exam-quiz.py` lines 118-124):
starting from the given list, keep records whose lower-cased category equals
the lower-cased requested category when the `--category` argument is truthy
(Python `if args.category:` - absent or empty string means no constraint),
then keep records whose difficulty equals the requested difficulty exactly
when the `--difficulty` argument is truthy. -/
def filterQuestions (category difficulty : Option String) (questions : List Question) :
    List Question :=
  let questions1 :=
    match category with
    | none => questions
    | some c =>
        if c = "" then questions
        else questions.filter (fun q => py_lower q.category == py_lower c)
  match difficulty with
  | none => questions1
  | some d =>
      if d = "" then questions1
      else questions1.filter (fun q => q.difficulty == d)

/-- The `ExamQuiz` object: question list, clamped count, order mode, and the
two session counters. -/
structure ExamQuiz where
  questions : List Question
  count : Nat
  random_order : Bool
  score : Nat
  total : Nat
deriving DecidableEq

/-- `ExamQuiz.__init__` (`src/exam-quiz.py` lines 47-52): store the
questions, clamp `count` to `min(count, len(questions))`, and start both
counters at 0. -/
def ExamQuiz.init (questions : List Question) (count : Nat) (random_order : Bool) : ExamQuiz :=
  { questions := questions
    count := min count questions.length
    random_order := random_order
    score := 0
    total := 0 }

/-- `random.sample(population, k)`: the result has `k` elements drawn at
pairwise distinct positions of the population, in draw order.  The random
draw itself is abstracted: any list obtainable this way is a possible
sample. -/
def IsSample (population sel : List Question) (k : Nat) : Prop :=
  sel.length = k ∧
    ∃ idxs : List (Fin population.length), idxs.Nodup ∧ sel = idxs.map population.get

/-- The selection step of `ExamQuiz.run` (`src/exam-quiz.py` line 60):
`random.sample(self.questions, self.count)` when `random_order` is set,
otherwise the slice `self.questions[:self.count]`. -/
def ExamQuiz.selects (quiz : ExamQuiz) (sel : List Question) : Prop :=
  if quiz.random_order then IsSample quiz.questions sel quiz.count
  else sel = quiz.questions.take quiz.count

/-- The scoring part of `ExamQuiz.ask_question` (`src/exam-quiz.py` lines
79-86): normalize the input line by stripping whitespace and upper-casing,
increment `total`, then increment `score` and print the success indicator if
the normalized input equals the record's answer key, otherwise print the
failure indicator naming the correct key.  Returns the updated session
together with the feedback line. -/
def ExamQuiz.ask_question (quiz : ExamQuiz) (input : String) (q : Question) :
    ExamQuiz × String :=
  let answer := py_upper (py_strip input)
  let quiz1 := { quiz with total := quiz.total + 1 }
  if answer = q.answer then
    ({ quiz1 with score := quiz1.score + 1 }, "✅ RICHTIG!")
  else
    (quiz1, "❌ FALSCH! Richtige Antwort: " ++ q.answer)

/-- The question loop of `ExamQuiz.run` (`src/exam-quiz.py` lines 62-63):
ask each selected question in order, feeding it the user's answer line. -/
def ExamQuiz.run_loop : ExamQuiz → List (Question × String) → ExamQuiz
  | quiz, [] => quiz
  | quiz, (q, a) :: rest => ExamQuiz.run_loop (quiz.ask_question a q).1 rest

/-- The percentage of `ExamQuiz.show_results` (`src/exam-quiz.py` line 92):
`score / total * 100` when `total > 0`, else `0`. -/
def ExamQuiz.percentage (quiz : ExamQuiz) : ℚ :=
  if quiz.total > 0 then (quiz.score : ℚ) / (quiz.total : ℚ) * 100 else 0

/-- Verdict line of the highest tier (`percentage >= 90`). -/
def VERDICT_EXCELLENT : String := "🏆 EXZELLENT!  Du bist bestens vorbereitet!"

/-- Verdict line of the second tier (`percentage >= 70`). -/
def VERDICT_GOOD : String := "✅ GUT! Mit etwas mehr Übung bist du perfekt vorbereitet."

/-- Verdict line of the third tier (`percentage >= 50`). -/
def VERDICT_PASSED : String := "⚠️  BESTANDEN, aber Luft nach oben.  Weiter üben!"

/-- Verdict line of the failing tier. -/
def VERDICT_FAILED : String := "❌ NICHT BESTANDEN. Wiederhole die Labs und versuche es erneut."

/-- `ExamQuiz.show_results` (`src/exam-quiz.py` lines 91-107): compute the
percentage and select the verdict line by ordered thresholds, highest
first. -/
def ExamQuiz.show_results (quiz : ExamQuiz) : ℚ × String :=
  let percentage := quiz.percentage
  if percentage ≥ 90 then (percentage, VERDICT_EXCELLENT)
  else if percentage ≥ 70 then (percentage, VERDICT_GOOD)
  else if percentage ≥ 50 then (percentage, VERDICT_PASSED)
  else (percentage, VERDICT_FAILED)

/-- Outcome of `main`: either the process terminated early with an exit code
and a message (`sys.exit(1)` after the empty-filter check), or a quiz
session was constructed and run. -/
inductive MainResult where
  | exited (code : Nat) (message : String)
  | ran (quiz : ExamQuiz)
deriving DecidableEq

namespace Script

/-- `main` (`src/exam-quiz.py` lines 109-131) after argument parsing: filter
the dataset by the optional category and difficulty arguments; if the result
is empty, print a message and exit with status 1; otherwise construct the
`ExamQuiz` session and run it. -/
def main (count : Nat) (category difficulty : Option String) (random_order : Bool) :
    MainResult :=
  let questions := filterQuestions category difficulty QUESTIONS
  if questions.isEmpty then
    MainResult.exited 1 "Keine Fragen gefunden für die gewählten Filter."
  else
    MainResult.ran (ExamQuiz.init questions count random_order)

end Script

/-- Process exit status of a `main` outcome: the explicit code on early
exit, `0` when the quiz ran to completion. -/
def MainResult.exit_code : MainResult → Nat
  | MainResult.exited code _ => code
  | MainResult.ran _ => 0

/-- A supplied category criterion must match case-insensitively; an omitted
criterion imposes no constraint. -/
def matches_category (category : Option String) (q : Question) : Prop :=
  ∀ c, category = some c → py_lower q.category = py_lower c

/-- A supplied difficulty criterion must match exactly; an omitted criterion
imposes no constraint. -/
def matches_difficulty (difficulty : Option String) (q : Question) : Prop :=
  ∀ d, difficulty = some d → q.difficulty = d

lemma filterQuestions_sublist (category difficulty : Option String) (qs : List Question) :
    (filterQuestions category difficulty qs).Sublist qs := by
  unfold filterQuestions
  cases category <;> cases difficulty <;> dsimp only <;> (try split_ifs) <;>
    first
      | exact List.Sublist.refl _
      | exact List.filter_sublist _
      | exact (List.filter_sublist _).trans (List.filter_sublist _)

/-- Claim C1: for every optional category and difficulty criterion (a
supplied criterion being a non-empty argument string), the filtered list is
the ordered subsequence of the original list containing exactly the records
that satisfy all supplied criteria; the category is compared
case-insensitively, the difficulty exactly, and omitted criteria impose no
constraint. -/
theorem filterQuestions_characterization
    (category difficulty : Option String) (qs : List Question)
    (hc : category ≠ some "") (hd : difficulty ≠ some "") :
    (filterQuestions category difficulty qs).Sublist qs ∧
      ∀ q : Question, q ∈ filterQuestions category difficulty qs ↔
        q ∈ qs ∧ matches_category category q ∧ matches_difficulty difficulty q := by
  refine ⟨filterQuestions_sublist _ _ _, fun q => ?_⟩
  cases category with
  | none =>
    cases difficulty with
    | none =>
      simp [filterQuestions, matches_category, matches_difficulty]
    | some d =>
      have hd1 : ¬ d = "" := fun h => hd (by rw [h])
      simp [filterQuestions, matches_category, matches_difficulty, hd1,
        List.mem_filter, and_assoc]
  | some c =>
    have hc1 : ¬ c = "" := fun h => hc (by rw [h])
    cases difficulty with
    | none =>
      simp [filterQuestions, matches_category, matches_difficulty, hc1,
        List.mem_filter, and_assoc]
    | some d =>
      have hd1 : ¬ d = "" := fun h => hd (by rw [h])
      simp [filterQuestions, matches_category, matches_difficulty, hc1, hd1,
        List.mem_filter, and_assoc]
      tauto

/-- Witness for C1 at the concrete criteria `--category vlan`,
`--difficulty easy` against the dataset. -/
theorem filterQuestions_characterization_witness :
    (filterQuestions (some "vlan") (some "easy") QUESTIONS).Sublist QUESTIONS ∧
      ∀ q : Question, q ∈ filterQuestions (some "vlan") (some "easy") QUESTIONS ↔
        q ∈ QUESTIONS ∧ matches_category (some "vlan") q ∧
          matches_difficulty (some "easy") q :=
  filterQuestions_characterization (some "vlan") (some "easy") QUESTIONS
    (by decide) (by decide)

/-- Claim C10: an empty string passed as the category criterion imposes no
constraint: the filter treats it exactly like an omitted category, and in
particular the full dataset passes through rather than producing an empty
result. -/
theorem empty_category_filter :
    (∀ (difficulty : Option String) (qs : List Question),
        filterQuestions (some "") difficulty qs = filterQuestions none difficulty qs) ∧
      filterQuestions (some "") none QUESTIONS = QUESTIONS ∧ QUESTIONS ≠ [] := by
  refine ⟨fun difficulty qs => ?_, rfl, by decide⟩
  cases difficulty <;> rfl

/-- Claim C2: each answer line is normalized by stripping surrounding
whitespace and upper-casing; `total` is always incremented; `score` is
incremented exactly when the normalized input equals the record's answer
key; any non-matching input (option key or not) yields the failure feedback
naming the correct key and leaves `score` unchanged - never an error. -/
theorem ask_question_scoring (quiz : ExamQuiz) (q : Question) (input : String) :
    ((quiz.ask_question input q).1).total = quiz.total + 1 ∧
      (((quiz.ask_question input q).1).score = quiz.score + 1 ↔
        py_upper (py_strip input) = q.answer) ∧
      (py_upper (py_strip input) = q.answer →
        (quiz.ask_question input q).2 = "✅ RICHTIG!") ∧
      (py_upper (py_strip input) ≠ q.answer →
        ((quiz.ask_question input q).1).score = quiz.score ∧
          (quiz.ask_question input q).2 = "❌ FALSCH! Richtige Antwort: " ++ q.answer) := by
  unfold ExamQuiz.ask_question
  dsimp only
  split_ifs with h
  · exact ⟨rfl, iff_of_true rfl h, fun _ => rfl, fun hne => absurd h hne⟩
  · exact ⟨rfl, iff_of_false (by simp) h, fun he => absurd he h, fun _ => ⟨rfl, rfl⟩⟩

/-- Witness for C2: the lower-case, whitespace-padded input `" b "` scores
against the stored key `"B"` of the first dataset record. -/
theorem ask_question_scoring_witness :
    (((ExamQuiz.init QUESTIONS 10 false).ask_question " b " question1).1).score =
      (ExamQuiz.init QUESTIONS 10 false).score + 1 :=
  ((ask_question_scoring (ExamQuiz.init QUESTIONS 10 false) question1 " b ").2.1).mpr
    (by decide)

/-- Claim C3: the verdict tier is selected by ordered thresholds evaluated
high-to-low with inclusive lower bounds (`>= 90`, else `>= 70`, else
`>= 50`, else failing); in particular exactly 90% yields the top tier,
exactly 70% the second, exactly 50% the third, and 49.9% the failing
tier. -/
theorem show_results_tiers :
    (∀ quiz : ExamQuiz,
      quiz.show_results.1 = quiz.percentage ∧
        (quiz.show_results.2 = VERDICT_EXCELLENT ↔ 90 ≤ quiz.percentage) ∧
        (quiz.show_results.2 = VERDICT_GOOD ↔
          70 ≤ quiz.percentage ∧ quiz.percentage < 90) ∧
        (quiz.show_results.2 = VERDICT_PASSED ↔
          50 ≤ quiz.percentage ∧ quiz.percentage < 70) ∧
        (quiz.show_results.2 = VERDICT_FAILED ↔ quiz.percentage < 50)) ∧
      (ExamQuiz.mk [] 0 false 9 10).show_results = (90, VERDICT_EXCELLENT) ∧
      (ExamQuiz.mk [] 0 false 7 10).show_results = (70, VERDICT_GOOD) ∧
      (ExamQuiz.mk [] 0 false 1 2).show_results = (50, VERDICT_PASSED) ∧
      (ExamQuiz.mk [] 0 false 499 1000).show_results = (499 / 10, VERDICT_FAILED) := by
  have hEG : VERDICT_EXCELLENT ≠ VERDICT_GOOD := by decide
  have hEP : VERDICT_EXCELLENT ≠ VERDICT_PASSED := by decide
  have hEF : VERDICT_EXCELLENT ≠ VERDICT_FAILED := by decide
  have hGP : VERDICT_GOOD ≠ VERDICT_PASSED := by decide
  have hGF : VERDICT_GOOD ≠ VERDICT_FAILED := by decide
  have hPF : VERDICT_PASSED ≠ VERDICT_FAILED := by decide
  refine ⟨fun quiz => ?_, ?_, ?_, ?_, ?_⟩
  · unfold ExamQuiz.show_results
    dsimp only
    split_ifs with h1 h2 h3
    · exact ⟨rfl, iff_of_true rfl h1,
        iff_of_false hEG fun h => absurd h.2 (not_lt.mpr h1),
        iff_of_false hEP fun h => absurd h.2 (not_lt.mpr (le_trans (by norm_num) h1)),
        iff_of_false hEF (not_lt.mpr (le_trans (by norm_num) h1))⟩
    · exact ⟨rfl, iff_of_false (Ne.symm hEG) h1,
        iff_of_true rfl ⟨h2, lt_of_not_le h1⟩,
        iff_of_false hGP fun h => absurd h.2 (not_lt.mpr h2),
        iff_of_false hGF (not_lt.mpr (le_trans (by norm_num) h2))⟩
    · exact ⟨rfl, iff_of_false (Ne.symm hEP) h1,
        iff_of_false (Ne.symm hGP) fun h => absurd h.1 h2,
        iff_of_true rfl ⟨h3, lt_of_not_le h2⟩,
        iff_of_false hPF (not_lt.mpr h3)⟩
    · exact ⟨rfl, iff_of_false (Ne.symm hEF) h1,
        iff_of_false (Ne.symm hGF) fun h => absurd h.1 h2,
        iff_of_false (Ne.symm hPF) fun h => absurd h.1 h3,
        iff_of_true rfl (lt_of_not_le h3)⟩
  · norm_num [ExamQuiz.show_results, ExamQuiz.percentage]
  · norm_num [ExamQuiz.show_results, ExamQuiz.percentage]
  · norm_num [ExamQuiz.show_results, ExamQuiz.percentage]
  · norm_num [ExamQuiz.show_results, ExamQuiz.percentage]

lemma ask_question_counters (quiz : ExamQuiz) (q : Question) (a : String) :
    ((quiz.ask_question a q).1).total = quiz.total + 1 ∧
      quiz.score ≤ ((quiz.ask_question a q).1).score ∧
      ((quiz.ask_question a q).1).score ≤ quiz.score + 1 := by
  unfold ExamQuiz.ask_question
  dsimp only
  split_ifs <;> simp

lemma run_loop_counters (xs : List (Question × String)) (quiz : ExamQuiz) :
    (ExamQuiz.run_loop quiz xs).total = quiz.total + xs.length ∧
      quiz.score ≤ (ExamQuiz.run_loop quiz xs).score ∧
      (ExamQuiz.run_loop quiz xs).score ≤ quiz.score + xs.length := by
  induction xs generalizing quiz with
  | nil => simp [ExamQuiz.run_loop]
  | cons x rest ih =>
    obtain ⟨q, a⟩ := x
    have hstep := ask_question_counters quiz q a
    have hrest := ih (quiz.ask_question a q).1
    simp only [ExamQuiz.run_loop, List.length_cons] at *
    omega

/-- Claim C8: both session counters start at 0; per question asked `total`
increases by exactly 1 and `score` by at most 1; over a whole run both are
monotonically non-decreasing and `score ≤ total` is preserved. -/
theorem session_counter_invariants :
    (∀ (qs : List Question) (count : Nat) (ro : Bool),
        (ExamQuiz.init qs count ro).score = 0 ∧ (ExamQuiz.init qs count ro).total = 0) ∧
      (∀ (quiz : ExamQuiz) (q : Question) (a : String),
        ((quiz.ask_question a q).1).total = quiz.total + 1 ∧
          quiz.score ≤ ((quiz.ask_question a q).1).score ∧
          ((quiz.ask_question a q).1).score ≤ quiz.score + 1) ∧
      ∀ (xs : List (Question × String)) (quiz : ExamQuiz),
        (ExamQuiz.run_loop quiz xs).total = quiz.total + xs.length ∧
          quiz.score ≤ (ExamQuiz.run_loop quiz xs).score ∧
          quiz.total ≤ (ExamQuiz.run_loop quiz xs).total ∧
          (ExamQuiz.run_loop quiz xs).score ≤ quiz.score + xs.length ∧
          (quiz.score ≤ quiz.total →
            (ExamQuiz.run_loop quiz xs).score ≤ (ExamQuiz.run_loop quiz xs).total) := by
  refine ⟨fun qs count ro => ⟨rfl, rfl⟩, ask_question_counters, fun xs quiz => ?_⟩
  obtain ⟨h1, h2, h3⟩ := run_loop_counters xs quiz
  omega

/-- Witness for C8: a full two-question session over the dataset (one right,
one wrong answer) keeps `score ≤ total`. -/
theorem session_counter_invariants_witness :
    ((ExamQuiz.init QUESTIONS 2 false).run_loop [(question1, "B"), (question2, "x")]).score ≤
      ((ExamQuiz.init QUESTIONS 2 false).run_loop [(question1, "B"), (question2, "x")]).total :=
  (session_counter_invariants.2.2 [(question1, "B"), (question2, "x")]
      (ExamQuiz.init QUESTIONS 2 false)).2.2.2.2 (by decide)

/-- Claim C4: for every requested count over a non-empty filtered list, the
number of questions a session asks is `min(requested_count,
len(filtered_questions))`: the selected list has that length, and running
the session over it raises `total` to exactly that number. -/
theorem count_clamping (qs : List Question) (count : Nat) (ro : Bool)
    (sel : List Question) (_hne : qs ≠ [])
    (hsel : (ExamQuiz.init qs count ro).selects sel) :
    sel.length = min count qs.length ∧
      ∀ inputs : List String, sel.length ≤ inputs.length →
        ((ExamQuiz.init qs count ro).run_loop (sel.zip inputs)).total =
          min count qs.length := by
  have hlen : sel.length = min count qs.length := by
    unfold ExamQuiz.selects ExamQuiz.init at hsel
    dsimp only at hsel
    cases ro with
    | true =>
      rw [if_pos rfl] at hsel
      exact hsel.1
    | false =>
      rw [if_neg (by decide)] at hsel
      rw [hsel, List.length_take]
      omega
  refine ⟨hlen, fun inputs hinputs => ?_⟩
  have hz : (sel.zip inputs).length = sel.length := by
    rw [List.length_zip]; omega
  have h1 := (run_loop_counters (sel.zip inputs) (ExamQuiz.init qs count ro)).1
  have h0 : (ExamQuiz.init qs count ro).total = 0 := rfl
  rw [h0] at h1
  omega

/-- Witness for C4: requesting 5 questions from the 2-question dataset asks
exactly `min 5 2` questions. -/
theorem count_clamping_witness :
    QUESTIONS.length = min 5 QUESTIONS.length ∧
      ∀ inputs : List String, QUESTIONS.length ≤ inputs.length →
        ((ExamQuiz.init QUESTIONS 5 false).run_loop (QUESTIONS.zip inputs)).total =
          min 5 QUESTIONS.length := by
  refine count_clamping QUESTIONS 5 false QUESTIONS (by decide) ?_
  unfold ExamQuiz.selects ExamQuiz.init
  norm_num [QUESTIONS]

/-- Claim C7: with `random_order` off, the session selects exactly the first
`count` records of the filtered list in their original order; in particular
when `count` is at least the list's length the whole list is selected in
order. -/
theorem sequential_selection (qs : List Question) (count : Nat) (sel : List Question)
    (hsel : (ExamQuiz.init qs count false).selects sel) :
    sel = qs.take count ∧ sel.Sublist qs ∧ (qs.length ≤ count → sel = qs) := by
  have hsel1 : sel = qs.take (min count qs.length) := by
    unfold ExamQuiz.selects ExamQuiz.init at hsel
    simpa using hsel
  have htake : qs.take (min count qs.length) = qs.take count := by
    rcases le_total count qs.length with h | h
    · rw [min_eq_left h]
    · rw [min_eq_right h, List.take_length, List.take_of_length_le h]
  refine ⟨by rw [hsel1, htake], ?_, fun hle => ?_⟩
  · rw [hsel1, htake]; exact List.take_sublist _ _
  · rw [hsel1, htake, List.take_of_length_le hle]

/-- Witness for C7: the 2-question dataset with requested count 5 and no
randomization selects both questions in original order. -/
theorem sequential_selection_witness :
    QUESTIONS = QUESTIONS.take 5 ∧ QUESTIONS.Sublist QUESTIONS ∧
      (QUESTIONS.length ≤ 5 → QUESTIONS = QUESTIONS) := by
  refine sequential_selection QUESTIONS 5 QUESTIONS ?_
  unfold ExamQuiz.selects ExamQuiz.init
  norm_num [QUESTIONS]

/-- Claim C5: when the filter result is empty, `main` prints a user-facing
message and terminates with exit status 1 before any quiz session is
constructed; otherwise the session is constructed and run, and the process
exits with status 0. -/
theorem main_exit_behavior (count : Nat) (category difficulty : Option String) (ro : Bool) :
    (filterQuestions category difficulty QUESTIONS = [] →
        Script.main count category difficulty ro =
            MainResult.exited 1 "Keine Fragen gefunden für die gewählten Filter." ∧
          (Script.main count category difficulty ro).exit_code = 1) ∧
      (filterQuestions category difficulty QUESTIONS ≠ [] →
        Script.main count category difficulty ro =
            MainResult.ran
              (ExamQuiz.init (filterQuestions category difficulty QUESTIONS) count ro) ∧
          (Script.main count category difficulty ro).exit_code = 0) := by
  constructor
  · intro h
    have he : (filterQuestions category difficulty QUESTIONS).isEmpty = true := by
      rw [h]; rfl
    simp [Script.main, he, MainResult.exit_code]
  · intro h
    have he : (filterQuestions category difficulty QUESTIONS).isEmpty = false := by
      cases hq : filterQuestions category difficulty QUESTIONS with
      | nil => exact absurd hq h
      | cons a l => rfl
    simp [Script.main, he, MainResult.exit_code]

/-- Witness for C5: a category matched by no record makes `main` exit with
status 1 and the message, without constructing a session. -/
theorem main_exit_behavior_witness :
    Script.main 10 (some "zzz") none false =
        MainResult.exited 1 "Keine Fragen gefunden für die gewählten Filter." ∧
      (Script.main 10 (some "zzz") none false).exit_code = 1 :=
  (main_exit_behavior 10 (some "zzz") none false).1 (by decide)

/-- Claim C6: a random-order selection of `k` questions is a sample without
replacement from the filtered set: it has `k` elements, no record appears
twice, and every selected record belongs to the filtered set. -/
theorem random_selection_without_replacement
    (category difficulty : Option String) (k : Nat) (sel : List Question)
    (hsel : IsSample (filterQuestions category difficulty QUESTIONS) sel k) :
    sel.length = k ∧ sel.Nodup ∧
      ∀ q ∈ sel, q ∈ filterQuestions category difficulty QUESTIONS := by
  obtain ⟨hlen, idxs, hnd, hmap⟩ := hsel
  have hqnd : (filterQuestions category difficulty QUESTIONS).Nodup :=
    List.Nodup.sublist (filterQuestions_sublist category difficulty QUESTIONS) (by decide)
  refine ⟨hlen, ?_, ?_⟩
  · rw [hmap]
    apply List.Nodup.map_on _ hnd
    intro i _ j _ hij
    exact hqnd.get_inj_iff.mp hij
  · intro q hq
    rw [hmap] at hq
    obtain ⟨i, _, rfl⟩ := List.mem_map.mp hq
    exact List.get_mem _ i.1 i.2

/-- Witness for C6: drawing both records of the unfiltered dataset (indices
0 then 1) is a sample of size 2; it is duplicate-free and inside the
filtered set. -/
theorem random_selection_without_replacement_witness :
    QUESTIONS.length = 2 ∧ QUESTIONS.Nodup ∧
      ∀ q ∈ QUESTIONS, q ∈ filterQuestions none none QUESTIONS :=
  random_selection_without_replacement none none 2 QUESTIONS
    ⟨rfl, [⟨0, by decide⟩, ⟨1, by decide⟩], by decide, by decide⟩

/-- Claim C9: the reported percentage is 0 when `total = 0` (the division is
guarded, never an error) and `score / total * 100` otherwise, both as the
computed percentage and as the first component of the reported results. -/
theorem percentage_division_guard (quiz : ExamQuiz) :
    (quiz.total = 0 → quiz.percentage = 0 ∧ quiz.show_results.1 = 0) ∧
      (0 < quiz.total →
        quiz.percentage = (quiz.score : ℚ) / (quiz.total : ℚ) * 100 ∧
          quiz.show_results.1 = (quiz.score : ℚ) / (quiz.total : ℚ) * 100) := by
  have hs : quiz.show_results.1 = quiz.percentage := by
    unfold ExamQuiz.show_results
    dsimp only
    split_ifs <;> rfl
  constructor
  · intro h
    have hp : quiz.percentage = 0 := by
      unfold ExamQuiz.percentage
      rw [h]
      norm_num
    exact ⟨hp, by rw [hs, hp]⟩
  · intro h
    have hp : quiz.percentage = (quiz.score : ℚ) / (quiz.total : ℚ) * 100 := by
      unfold ExamQuiz.percentage
      rw [if_pos h]
    exact ⟨hp, by rw [hs, hp]⟩

/-- Witness for C9: a fresh session (both counters 0) reports percentage
0 rather than failing on the division. -/
theorem percentage_division_guard_witness :
    (ExamQuiz.init QUESTIONS 0 false).percentage = 0 ∧
      (ExamQuiz.init QUESTIONS 0 false).show_results.1 = 0 :=
  (percentage_division_guard (ExamQuiz.init QUESTIONS 0 false)).1 rfl
